import Mathlib

/-! # Verification of the Autoresponder agent core

A shallow embedding of the conversational tool-dispatch loop, the numbered
mailbox session, the draft generator and the e-mail body extraction of the
Autoresponder agent (`app/agents/gmail_agent.py`, `app/utils/mailbox_session.py`,
`app/utils/email_utils.py`), together with theorems settling the behavioural
claims of the specification.

Python strings are modelled as `List Char` (`PyStr`).  The external
capabilities (the Gmail provider, the Ollama language model, base64 decoding
and JSON parsing, all of which live outside the repository) are modelled as
oracle parameters; an oracle returning `Except.error e` models the
corresponding remote call raising an exception whose `str` is `e`.
-/

set_option maxRecDepth 4000

namespace Autoresponder

/-- Python strings, modelled as their character lists. -/
abbrev PyStr := List Char

/-- ASCII whitespace as recognised by Python's `str.strip` and by `\s` in the
regular expressions of `_generate_draft` (the inputs considered here are
ASCII, so the extra Unicode whitespace classes never arise). -/
def pyWs (c : Char) : Bool :=
  c = ' ' || c = '\t' || c = '\n' || c = '\r' || c = '\x0b' || c = '\x0c'

/-- Python `str.lstrip()`. -/
def pyStripL (s : PyStr) : PyStr := s.dropWhile pyWs

/-- Python `str.rstrip()`. -/
def pyStripR (s : PyStr) : PyStr := (s.reverse.dropWhile pyWs).reverse

/-- Python's `str.strip()` (no argument): drop whitespace on both ends. -/
def pyStrip (s : PyStr) : PyStr := pyStripR (pyStripL s)

/-- Case-insensitive lowering, `str.lower()` on ASCII. -/
def pyLower (s : PyStr) : PyStr := s.map Char.toLower

/-- Python `str.upper()` on ASCII. -/
def pyUpper (s : PyStr) : PyStr := s.map Char.toUpper

/-- If `s` starts (case-insensitively) with the pattern `p`, return the rest. -/
def dropCI : PyStr → PyStr → Option PyStr
  | [], s => some s
  | _ :: _, [] => none
  | p :: ps, c :: cs => if c.toLower = p.toLower then dropCI ps cs else none

/-- Case-insensitive `startswith`. -/
def startsCI (p s : PyStr) : Bool := (dropCI p s).isSome

/-- The closing phrases of the alternation used by the first two cleanup
patterns of `MailboxSession._generate_draft` (already lowercase; the regexes
are compiled with `re.IGNORECASE`). -/
def closingPhrases : List PyStr :=
  [("best regards").data, ("kind regards").data, ("regards").data,
   ("sincerely").data, ("thanks").data, ("thank you").data, ("cheers").data,
   ("warm regards").data, ("best").data, ("yours truly").data,
   ("yours sincerely").data, ("warmly").data, ("take care").data,
   ("with appreciation").data]

/-- After a closing phrase, consume an optional `[,.]` and hand the rest to
the pattern's tail test. -/
def afterPunct (tail : PyStr → Bool) : PyStr → Bool
  | [] => tail []
  | c :: cs => if c = ',' || c = '.' then tail cs else tail (c :: cs)

/-- Whether one of the `closing_patterns` alternatives matches here (the text
just after the leading `\n` of the pattern): `\s*(ALTERNATION)[,.]?` followed
by the pattern-specific tail. -/
def closingHere (tail : PyStr → Bool) (s : PyStr) : Bool :=
  let s' := s.dropWhile pyWs
  closingPhrases.any fun cl =>
    match dropCI cl s' with
    | some rest => afterPunct tail rest
    | none => false

/-- Tail of the first cleanup pattern, `\s*\n?\s*(Ayaan.*)?$` under
`re.DOTALL`: only whitespace remains, or whitespace followed by `Ayaan` and
then anything. -/
def tail1 (s : PyStr) : Bool :=
  let r := s.dropWhile pyWs
  r.isEmpty || startsCI (("ayaan").data) r

/-- Tail of the second cleanup pattern, `\s*$`. -/
def tail2 (s : PyStr) : Bool := (s.dropWhile pyWs).isEmpty

/-- First cleanup pattern of `_generate_draft`, matched at a `\n`:
`\n\s*(ALTERNATION)[,.]?\s*\n?\s*(Ayaan.*)?$`. -/
def pat1 (s : PyStr) : Bool := closingHere tail1 s

/-- Second cleanup pattern: `\n\s*(ALTERNATION)[,.]?\s*$`. -/
def pat2 (s : PyStr) : Bool := closingHere tail2 s

/-- Third cleanup pattern: `\n\s*-?\s*Ayaan.*$` under `re.DOTALL`. -/
def pat3 (s : PyStr) : Bool :=
  let r := s.dropWhile pyWs
  let r' := match r with
    | '-' :: rest => rest.dropWhile pyWs
    | _ => r
  startsCI (("ayaan").data) r'

/-- Python `re.sub(pattern, removal, draft)` for an end-anchored pattern beginning with
`\n`: delete from the leftmost newline at which the rest of the pattern
matches through to the end of the string. -/
def stripAtPat (check : PyStr → Bool) : PyStr → PyStr
  | [] => []
  | c :: cs => if c = '\n' && check cs then [] else c :: stripAtPat check cs

/-- The cleanup loop of `_generate_draft`: apply the three closing patterns in
order, stripping (`.strip()`) after each substitution. -/
def cleanupClosings (s : PyStr) : PyStr :=
  pyStrip (stripAtPat pat3 (pyStrip (stripAtPat pat2 (pyStrip (stripAtPat pat1 s)))))

/-- Tone configuration: instruction text, exact signature block, sampling
temperature (`tone_configs` in `_generate_draft`). -/
structure ToneConfig where
  instruction : PyStr
  signature : PyStr
  temperature : Rat
deriving DecidableEq, Repr

/-- The `"normal"` entry of `tone_configs`. -/
def normalConfig : ToneConfig :=
  { instruction :=
      ("Write a NORMAL, straightforward email reply. Use a balanced tone that is neither too formal nor too casual. Be clear, helpful, and polite. Keep it simple and to the point.").data
    signature := ("Regards,\nAyaan").data
    temperature := (7 : Rat)/10 }

/-- The `"friendly"` entry of `tone_configs`. -/
def friendlyConfig : ToneConfig :=
  { instruction :=
      ("Write a WARM, FRIENDLY, and CASUAL reply. Use a conversational, approachable tone like you\x27re writing to a friend. Feel free to use casual expressions, contractions, and show enthusiasm! Add warmth with phrases like \x27Hey!\x27, \x27Thanks so much!\x27, \x27That sounds great!\x27. Use exclamation points where appropriate to convey energy and positivity. Be personable, genuine, and make the recipient feel valued.").data
    signature := ("Regards,\nAyaan").data
    temperature := (9 : Rat)/10 }

/-- The `"professional"` entry of `tone_configs`. -/
def professionalConfig : ToneConfig :=
  { instruction :=
      ("Write a FORMAL and PROFESSIONAL reply suitable for official correspondence. Use formal language with proper salutations like \x27Dear Sir/Madam\x27 or \x27Dear Mr./Ms. [Name]\x27. Maintain a serious, respectful, and professional tone throughout. Use formal phrases like \x27I am writing to...\x27, \x27Thank you for your correspondence...\x27. Avoid contractions (use \x27I am\x27 not \x27I\x27m\x27, \x27do not\x27 not \x27don\x27t\x27). Be precise, structured, and courteous.").data
    signature := ("Regards,\nAyaan Asish\nGrade 11\nWest Carleton Secondary School, Ontario").data
    temperature := (1 : Rat)/2 }

/-- Lookup `tone_configs.get(tone, default)` with the normal entry as default: unknown tones fall back
to the normal configuration. -/
def tone_configs (tone : PyStr) : ToneConfig :=
  if tone = ("normal").data then normalConfig
  else if tone = ("friendly").data then friendlyConfig
  else if tone = ("professional").data then professionalConfig
  else normalConfig

/-- The deterministic fallback sentence of `_generate_draft`. -/
def fallbackSentence (subject : PyStr) : PyStr :=
  ("Thank you for your email regarding \x27").data ++ subject ++
    ("\x27. I will review and respond shortly.").data

/-- The prompt composed by `_generate_draft` for the language model. -/
def draftPrompt (from_addr subject body tone instruction : PyStr) : PyStr :=
  ("You are an email assistant writing on behalf of Ayaan. Write a reply in a SPECIFIC tone.\n\n=== TONE: ").data
    ++ pyUpper tone ++ (" ===\n").data ++ instruction
    ++ ("\n\n=== ORIGINAL EMAIL ===\nFrom: ").data ++ from_addr
    ++ ("\nSubject: ").data ++ subject ++ ("\n\n").data ++ body
    ++ ("\n=== END OF EMAIL ===\n\n=== CRITICAL INSTRUCTIONS ===\n1. Write ONLY the email body content\n2. Do NOT include any Subject line or email headers\n3. Do NOT add ANY signature or closing at the end\n4. Do NOT write \x27Regards\x27, \x27Best regards\x27, \x27Sincerely\x27, \x27Thanks\x27, \x27Cheers\x27, or ANY closing phrase\n5. Do NOT sign off with any name\n6. Just write the main message content and STOP\n7. The tone MUST be clearly ").data
    ++ pyUpper tone ++ ("\n\nWrite the reply body now (NO signature, NO closing):").data

/-- The text-generation capability used by the draft generator
(`OllamaClientWrapper.generate_text`): given prompt and temperature, either
the generated text or a raised exception. -/
abbrev GenCap := PyStr → Rat → Except PyStr PyStr

/-- Embedding of `MailboxSession._generate_draft`: tone selection, prompt composition, one
Language-Model Capability call, closing-pattern cleanup, signature append, and
the templated fallback on capability failure. -/
def generate_draft (llm : GenCap) (from_addr subject body tone : PyStr) : PyStr :=
  let config := tone_configs tone
  match llm (draftPrompt from_addr subject body tone config.instruction) config.temperature with
  | .error _ =>
      -- `except Exception`: fallback draft with the selected tone's signature
      fallbackSentence subject ++ ("\n\n").data ++ config.signature
  | .ok draft =>
      -- `if not draft or not draft.strip(): draft = fallback`
      let draft := if draft = [] || pyStrip draft = [] then fallbackSentence subject else draft
      let draft := pyStrip draft
      let draft := cleanupClosings draft
      draft ++ ("\n\n").data ++ config.signature

/-! ## email_utils: body extraction, address parsing, reply message -/

/-- A Gmail message payload tree (`payload` dicts of the Gmail API).
`bodyData` is the raw base64url `body.data` field when present. -/
inductive Payload where
  | mk (bodyData : Option PyStr) (mimeType : PyStr) (parts : List Payload)

/-- The `body.data` field of a payload node. -/
def Payload.bodyData : Payload → Option PyStr
  | .mk b _ _ => b

/-- The `mimeType` field of a payload node. -/
def Payload.mimeType : Payload → PyStr
  | .mk _ m _ => m

/-- The `parts` list of a payload node. -/
def Payload.parts : Payload → List Payload
  | .mk _ _ p => p

/-- Python truthiness of `payload.get("body", {}).get("data")`: present and
non-empty. -/
def truthyData : Option PyStr → Bool
  | none => false
  | some s => !s.isEmpty

mutual

/-- Embedding of `email_utils.extract_email_body`: decoded inline body if present,
otherwise the first `text/plain` part (with data) scanning `parts` in order,
recursing into multipart containers, truncated to `maxLength`; `decode` models
`base64.urlsafe_b64decode(...).decode("utf-8", errors="ignore")`. -/
def extract_email_body (decode : PyStr → PyStr) (p : Payload) (maxLength : Nat) : PyStr :=
  match p with
  | .mk bodyData _ parts =>
    if truthyData bodyData then (decode (bodyData.getD [])).take maxLength
    else extractFromParts decode parts maxLength

/-- The `for part in payload.get("parts", [])` loop of `extract_email_body`. -/
def extractFromParts (decode : PyStr → PyStr) (parts : List Payload) (maxLength : Nat) : PyStr :=
  match parts with
  | [] => []
  | part :: rest =>
    if part.mimeType = ("text/plain").data && truthyData part.bodyData then
      (decode (part.bodyData.getD [])).take maxLength
    else if (("multipart/").data).isPrefixOf part.mimeType then
      let nested := extract_email_body decode part maxLength
      if !nested.isEmpty then nested else extractFromParts decode rest maxLength
    else extractFromParts decode rest maxLength

end

/-- Embedding of `email_utils.parse_email_address`: extract the address from a
`"Name <addr>"` From header. -/
def parse_email_address (fromHeader : PyStr) : PyStr :=
  if fromHeader.contains '<' && fromHeader.contains '>' then
    -- from_header.split("<")[-1].rstrip(">").strip()
    let afterLt := (fromHeader.reverse.takeWhile (· ≠ '<')).reverse
    pyStrip ((afterLt.reverse.dropWhile (· = '>')).reverse)
  else pyStrip fromHeader

/-- The observable content of the message built by
`email_utils.create_reply_message` (the MIME/base64 encoding itself is an
external library; the provider oracle receives these fields). -/
structure ReplyMessage where
  to_ : PyStr
  subject : PyStr
  body : PyStr
  threadId : Option PyStr
deriving DecidableEq, Repr

/-- Embedding of `email_utils.create_reply_message`: `Re:` prefixing and `threadId`
propagation (`if thread_id:` keeps only a truthy thread id). -/
def create_reply_message (toAddress subject body : PyStr) (threadId : Option PyStr) : ReplyMessage :=
  { to_ := toAddress
    subject := if (("re:").data).isPrefixOf (pyLower subject) then subject else ("Re: ").data ++ subject
    body := body
    threadId := match threadId with
      | some t => if t.isEmpty then none else some t
      | none => none }

/-! ## MailboxSession -/

/-- Metadata-format response of the provider's `messages().get` (headers as
returned, in order; duplicate header names are possible). -/
structure MsgMeta where
  headers : List (PyStr × PyStr)
  snippet : PyStr
  threadId : Option PyStr
deriving DecidableEq, Repr

/-- Full-format response of the provider's `messages().get`. -/
structure FullMsg where
  headers : List (PyStr × PyStr)
  payload : Payload
  threadId : Option PyStr

/-- The Mail Capability: an oracle for the provider calls made by
`MailboxSession`; `Except.error e` models the call raising with message `e`. -/
structure GmailSvc where
  listMessages : PyStr → Int → Except PyStr (List PyStr)
  getMessage : PyStr → Except PyStr MsgMeta
  getMessageFull : PyStr → Except PyStr FullMsg
  sendMessage : ReplyMessage → Except PyStr Unit

/-- A record of one Mail Capability invocation. -/
inductive CapCall where
  | list (query : PyStr) (maxResults : Int)
  | getMeta (id : PyStr)
  | getFull (id : PyStr)
  | send (m : ReplyMessage)
deriving DecidableEq, Repr

/-- Header lookup through the dict comprehension and its `.get(k, d)`: the dict
comprehension lets a later duplicate header overwrite an earlier one. -/
def headerGet (hs : List (PyStr × PyStr)) (k d : PyStr) : PyStr :=
  match hs.reverse.find? (fun h => h.1 = k) with
  | some h => h.2
  | none => d

/-- First-occurrence association lookup, `dict.get` for dicts with unique
keys. -/
def dget {α : Type} (m : List (Int × α)) (k : Int) : Option α :=
  (m.find? (fun e => e.1 = k)).map (fun e => e.2)

/-- Python dict assignment: replace in place if the key exists, else append. -/
def dinsert {α : Type} : List (Int × α) → Int → α → List (Int × α)
  | [], k, v => [(k, v)]
  | (k', v') :: t, k, v =>
    if k' = k then (k, v) :: t else (k', v') :: dinsert t k v

/-- A cached email (`MailboxSession.email_cache` values). -/
structure CachedEmail where
  from_ : PyStr
  subject : PyStr
  body : PyStr
deriving DecidableEq, Repr

/-- The mutable state of a `MailboxSession`. -/
structure Session where
  index_map : List (Int × PyStr)
  last_draft : Option PyStr
  last_number : Option Int
  email_cache : List (Int × CachedEmail)
deriving DecidableEq, Repr

/-- Embedding of `MailboxSession.__init__`. -/
def Session.init : Session :=
  { index_map := [], last_draft := none, last_number := none, email_cache := [] }

/-- Embedding of `MailboxSession.clear`. -/
def Session.clear (_ : Session) : Session := Session.init

/-- One entry of the `emails` list returned by `list_emails`. -/
structure EmailEntry where
  number : Int
  id : PyStr
  from_ : PyStr
  subject : PyStr
  date : PyStr
  snippet : PyStr
deriving DecidableEq, Repr

/-- Result dict of `list_emails`: `{"emails":…, "count":len(emails)}`,
`{"emails":[], "message":…}` or `{"error":…}`. -/
inductive ListResult where
  | ok (emails : List EmailEntry)
  | empty (message : PyStr)
  | err (e : PyStr)
deriving DecidableEq, Repr

/-- The per-message loop of `list_emails`: fetch metadata, assign the next
handle, accumulate summaries; a provider fault aborts the loop with the
index map as rebuilt so far. -/
def listLoop (svc : GmailSvc) : List PyStr → Int → Session → List EmailEntry →
    List CapCall → Session × ListResult × List CapCall
  | [], _, s, acc, calls => (s, .ok acc, calls)
  | msgId :: rest, i, s, acc, calls =>
    match svc.getMessage msgId with
    | .error e => (s, .err e, calls ++ [.getMeta msgId])
    | .ok data =>
      let s' := { s with index_map := s.index_map ++ [(i, msgId)] }
      let entry : EmailEntry :=
        { number := i
          id := msgId
          from_ := headerGet data.headers (("From").data) (("Unknown").data)
          subject := headerGet data.headers (("Subject").data) (("(No Subject)").data)
          date := headerGet data.headers (("Date").data) []
          snippet := data.snippet.take 120 }
      listLoop svc rest (i + 1) s' (acc ++ [entry]) (calls ++ [.getMeta msgId])

/-- Embedding of `MailboxSession.list_emails`. -/
def list_emails (svc : GmailSvc) (s : Session) (maxResults : Int) (query : PyStr) :
    Session × ListResult × List CapCall :=
  match svc.listMessages query maxResults with
  | .error e => (s, .err e, [.list query maxResults])
  | .ok msgs =>
    -- `self.index_map.clear()` runs after the list call succeeded,
    -- before any metadata is fetched
    let s' := { s with index_map := [] }
    if msgs.isEmpty then
      (s', .empty (("No emails found matching the query.").data), [.list query maxResults])
    else listLoop svc msgs 1 s' [] [.list query maxResults]

/-- The lookup-failure message of `read_email` and `send_reply`. -/
def invalidNumberMsg (number : Int) : PyStr :=
  ("Invalid email number ").data ++ (toString number).data ++
    (". Please list emails first.").data

/-- Success dict of `read_email`. -/
structure ReadOk where
  number : Int
  id : PyStr
  from_ : PyStr
  subject : PyStr
  date : PyStr
  body : PyStr
  threadId : Option PyStr
  draft_reply : Option PyStr
  tone : Option PyStr
deriving DecidableEq, Repr

/-- Result dict of `read_email`. -/
inductive ReadResult where
  | ok (r : ReadOk)
  | err (e : PyStr)
deriving DecidableEq, Repr

/-- Embedding of `MailboxSession.read_email`. -/
def read_email (svc : GmailSvc) (decode : PyStr → PyStr) (llm : GenCap)
    (s : Session) (number : Int) (generateDraft : Bool) (tone : PyStr) :
    Session × ReadResult × List CapCall :=
  match dget s.index_map number with
  | none => (s, .err (invalidNumberMsg number), [])
  | some emailId =>
    -- `if not email_id`: an empty id is also treated as unknown
    if emailId.isEmpty then (s, .err (invalidNumberMsg number), [])
    else
      match svc.getMessageFull emailId with
      | .error e => (s, .err e, [.getFull emailId])
      | .ok msg =>
        let body := extract_email_body decode msg.payload 3000
        let cached : CachedEmail :=
          { from_ := headerGet msg.headers (("From").data) []
            subject := headerGet msg.headers (("Subject").data) []
            body := body }
        let s' := { s with email_cache := dinsert s.email_cache number cached }
        let base : ReadOk :=
          { number := number
            id := emailId
            from_ := headerGet msg.headers (("From").data) (("Unknown").data)
            subject := headerGet msg.headers (("Subject").data) (("(No Subject)").data)
            date := headerGet msg.headers (("Date").data) []
            body := body
            threadId := msg.threadId
            draft_reply := none
            tone := none }
        if generateDraft then
          let draft := generate_draft llm cached.from_ cached.subject body tone
          let s'' := { s' with last_draft := some draft, last_number := some number }
          (s'', .ok { base with draft_reply := some draft, tone := some tone }, [.getFull emailId])
        else (s', .ok base, [.getFull emailId])

/-- Result dict of `regenerate_draft`. -/
inductive RegenResult where
  | ok (number : Int) (draft_reply : PyStr) (tone : PyStr)
  | err (e : PyStr)
deriving DecidableEq, Repr

/-- Embedding of `MailboxSession.regenerate_draft` (its `except` branch is unreachable:
`_generate_draft` catches capability faults itself). -/
def regenerate_draft (llm : GenCap) (s : Session) (number : Int) (tone : PyStr) :
    Session × RegenResult :=
  match dget s.email_cache number with
  | none =>
    (s, .err (("Email ").data ++ (toString number).data ++
      (" not found in cache. Please read the email first.").data))
  | some cached =>
    let draft := generate_draft llm cached.from_ cached.subject cached.body tone
    ({ s with last_draft := some draft, last_number := some number },
      .ok number draft tone)

/-- A dynamically-typed Python value arriving through tool-call arguments. -/
inductive PyV where
  | int (n : Int)
  | str (s : PyStr)
  | null
deriving DecidableEq, Repr

/-- Rendering `str(v)` of a `PyV`, as Python f-strings produce it. -/
def PyV.pyRepr : PyV → PyStr
  | .int n => (toString n).data
  | .str s => s
  | .null => ("None").data

/-- Result dict of `send_reply`: `{"success": True, "sent_to":…,
"subject":…}` or `{"error":…}`. -/
inductive SendResult where
  | ok (sent_to : PyStr) (subject : PyStr)
  | err (e : PyStr)
deriving DecidableEq, Repr

/-- The no-draft error message of `send_reply`. -/
def noDraftMsg : PyStr :=
  ("No draft available for this email. Please read the email first to generate a draft.").data

/-- The `if reply_body is None` block of `send_reply`: fall back to the
pending draft, requiring `self.last_number == number` and a truthy
`self.last_draft`. -/
def resolveReplyBody (s : Session) (number : Int) (replyBody : Option PyV) : Option PyV :=
  match replyBody with
  | some v => some v
  | none =>
    match s.last_draft with
    | some d =>
      if s.last_number = some number && !d.isEmpty then some (.str d) else none
    | none => none

/-- Embedding of `MailboxSession.send_reply`.  `replyBody = none` models both the omitted
argument and an explicit Python `None`; a non-string, non-`None` body
(`some v` with `v` not a `.str`) reaches `create_reply_message`, whose
`MIMEText` call raises inside the `try` and is caught as `{error}`. -/
def send_reply (svc : GmailSvc) (s : Session) (number : Int) (replyBody : Option PyV) :
    Session × SendResult × List CapCall :=
  match dget s.index_map number with
  | none => (s, .err (invalidNumberMsg number), [])
  | some emailId =>
    if emailId.isEmpty then (s, .err (invalidNumberMsg number), [])
    else
      match resolveReplyBody s number replyBody with
      | none => (s, .err noDraftMsg, [])
      | some bv =>
        match svc.getMessage emailId with
        | .error e => (s, .err e, [.getMeta emailId])
        | .ok orig =>
          let toAddr := parse_email_address (headerGet orig.headers (("From").data) [])
          let subject := headerGet orig.headers (("Subject").data) []
          match bv with
          | .str body =>
            let message := create_reply_message toAddr subject body orig.threadId
            match svc.sendMessage message with
            | .error e => (s, .err e, [.getMeta emailId, .send message])
            | .ok _ =>
              -- clear the pending draft after a successful send,
              -- only when it belongs to this handle
              let s' :=
                if s.last_number = some number then
                  { s with last_draft := none, last_number := none }
                else s
              (s', .ok toAddr
                (if (("re:").data).isPrefixOf (pyLower subject) then subject
                 else ("Re: ").data ++ subject),
                [.getMeta emailId, .send message])
          | _ =>
            (s, .err (("TypeError: reply body must be a string").data), [.getMeta emailId])

/-! ## GmailAgent: the tool-dispatch loop -/

/-- The `arguments` field of a tool call: pre-parsed mapping, raw string, or
some other (non-mapping, non-string) value. -/
inductive FArgs where
  | obj (kvs : List (PyStr × PyV))
  | text (s : PyStr)
  | other
deriving DecidableEq, Repr

/-- A tool call carried by a model response
(`tool_call["function"]["name"/"arguments"]`, with `.get` defaults). -/
structure ToolCall where
  name : PyStr
  args : FArgs
deriving DecidableEq, Repr

/-- The `message` object of a model response: text content plus the
(possibly empty) `tool_calls` list. -/
structure AMsg where
  content : PyStr
  tool_calls : List ToolCall
deriving DecidableEq, Repr

/-- An entry of `GmailAgent.conversation_history`. -/
inductive HMsg where
  | user (content : PyStr)
  | assistant (content : PyStr)
  | assistantCalls (m : AMsg)
  | tool (content : PyStr)
deriving DecidableEq, Repr

/-- A tool result dict, before `json.dumps`: the payload of one of the three
mailbox operations, or the inline `{"error": "Unknown function: …"}` dict. -/
inductive ToolRes where
  | listR (r : ListResult)
  | readR (r : ReadResult)
  | sendR (r : SendResult)
  | errorDict (msg : PyStr)
deriving DecidableEq, Repr

/-- Result of `json.loads` on a string argument payload: a decode error, or a
parsed value (a mapping, or some non-mapping JSON value). -/
abbrev JsonLoads := PyStr → Except Unit FArgs

/-- The environment of a `GmailAgent` turn: the injected capabilities.
`responses` is the sequence of Language-Model Capability answers consumed by
the dispatch loop's `client.chat` calls, in order; `llmGen` is the
text-generation capability used inside the draft generator; `dumps` models
`json.dumps(result, default=str)` (total — `default=str` never fails). -/
structure AgentEnv where
  svc : GmailSvc
  decode : PyStr → PyStr
  llmGen : GenCap
  responses : List AMsg
  jsonLoads : JsonLoads
  dumps : ToolRes → PyStr

/-- The dispatch table keys (`GmailAgent.tool_functions`). -/
def knownTool (name : PyStr) : Bool :=
  name = ("list_emails").data || name = ("read_email").data ||
    name = ("send_email_reply").data

/-- Keyword arguments of a parsed mapping: key set (Python dict keys are
unique; duplicates from a hand-rolled parser are collapsed) and
first-occurrence value lookup. -/
def argKeys (kvs : List (PyStr × PyV)) : List PyStr :=
  (kvs.map Prod.fst).dedup

/-- Value lookup in a parsed argument mapping. -/
def aget (kvs : List (PyStr × PyV)) (k : PyStr) : Option PyV :=
  (kvs.find? (fun e => e.1 = k)).map (fun e => e.2)

/-- Whether `f(**kwargs)` binds for a wrapper with the given required and
allowed parameter names; a missing required or an unexpected keyword raises
`TypeError`. -/
def kwargsBind (required allowed : List PyStr) (kvs : List (PyStr × PyV)) : Bool :=
  required.all (fun r => (argKeys kvs).contains r) &&
    (argKeys kvs).all (fun k => allowed.contains k)

/-- Required parameters of each tool wrapper (`_tool_list_emails` has only
defaults; `_tool_read_email` and `_tool_send_reply` require `email_number`). -/
def toolRequired (name : PyStr) : List PyStr :=
  if name = ("list_emails").data then []
  else [("email_number").data]

/-- Accepted parameters of each tool wrapper. -/
def toolAllowed (name : PyStr) : List PyStr :=
  if name = ("list_emails").data then [("max_results").data, ("query").data]
  else if name = ("read_email").data then [("email_number").data]
  else [("email_number").data, ("reply_body").data]

/-- Wrapper `_tool_list_emails(**kwargs)`: defaults `max_results=10`,
`query="is:unread"`.  A non-int `max_results` or non-string `query` would be
rejected by the provider client when building the request, inside
`list_emails`' `try`, surfacing as `{error}` before the index map is
touched. -/
def toolListEmails (svc : GmailSvc) (mb : Session) (kvs : List (PyStr × PyV)) :
    Session × ToolRes :=
  match (aget kvs (("max_results").data)).getD (.int 10),
      (aget kvs (("query").data)).getD (.str (("is:unread").data)) with
  | .int n, .str q =>
    let (mb', r, _) := list_emails svc mb n q
    (mb', .listR r)
  | _, _ => (mb, .listR (.err (("TypeError: invalid request parameter").data)))

/-- Wrapper `_tool_read_email(**kwargs)`: a non-int `email_number` never matches the
int keys of `index_map`, so `read_email` reports the unknown-number error. -/
def toolReadEmail (env : AgentEnv) (mb : Session) (kvs : List (PyStr × PyV)) :
    Session × ToolRes :=
  match (aget kvs (("email_number").data)).getD .null with
  | .int n =>
    let (mb', r, _) := read_email env.svc env.decode env.llmGen mb n true (("normal").data)
    (mb', .readR r)
  | v =>
    (mb, .readR (.err (("Invalid email number ").data ++ v.pyRepr ++
      (". Please list emails first.").data)))

/-- Wrapper `_tool_send_reply(**kwargs)`: `reply_body` may be absent or JSON `null`
(both are Python `None`), a string, or another value (which `send_reply`
rejects when building the MIME message). -/
def toolSendReply (svc : GmailSvc) (mb : Session) (kvs : List (PyStr × PyV)) :
    Session × ToolRes :=
  match (aget kvs (("email_number").data)).getD .null with
  | .int n =>
    let rb : Option PyV :=
      match aget kvs (("reply_body").data) with
      | none => none
      | some .null => none
      | some v => some v
    let (mb', r, _) := send_reply svc mb n rb
    (mb', .sendR r)
  | v =>
    (mb, .sendR (.err (("Invalid email number ").data ++ v.pyRepr ++
      (". Please list emails first.").data)))

/-- The argument value used by the dispatch after the string-degrading step:
a raw-string payload is parsed once, a `JSONDecodeError` degrades it to the
empty mapping. -/
def resolvedArgs (env : AgentEnv) (tc : ToolCall) : FArgs :=
  match tc.args with
  | .text s =>
    match env.jsonLoads s with
    | .ok v => v
    | .error _ => .obj []
  | a => a

/-- Whether dispatching this tool call completes without an uncaught
exception: unknown tools always do; a known tool needs a mapping whose keys
bind to the wrapper's signature. -/
def dispatchBinds (env : AgentEnv) (tc : ToolCall) : Bool :=
  if knownTool tc.name then
    match resolvedArgs env tc with
    | .obj kvs => kwargsBind (toolRequired tc.name) (toolAllowed tc.name) kvs
    | _ => false
  else true

/-- One iteration of the tool-call loop in `GmailAgent.chat`: degrade the
arguments, dispatch known names through `tool_functions`, produce the inline
error payload for unknown names; `Except.error` is an uncaught `TypeError`
from `self.tool_functions[name](**func_args)` aborting the turn. -/
def dispatchCall (env : AgentEnv) (mb : Session) (tc : ToolCall) :
    Except PyStr (Session × ToolRes) :=
  let args := resolvedArgs env tc
  if knownTool tc.name then
    match args with
    | .obj kvs =>
      if kwargsBind (toolRequired tc.name) (toolAllowed tc.name) kvs then
        if tc.name = ("list_emails").data then .ok (toolListEmails env.svc mb kvs)
        else if tc.name = ("read_email").data then .ok (toolReadEmail env mb kvs)
        else .ok (toolSendReply env.svc mb kvs)
      else .error (("TypeError: arguments do not match the signature of ").data ++ tc.name)
    | _ => .error (("TypeError: argument of type ").data ++ tc.name ++
        (" is not a mapping").data)
  else .ok (mb, .errorDict (("Unknown function: ").data ++ tc.name))

/-- Outcome of the tool-call loop: mailbox and history as mutated so far, the
calls processed to completion, and the uncaught exception if one aborted the
loop. -/
structure LoopOut where
  mailbox : Session
  hist : List HMsg
  processed : List ToolCall
  fault : Option PyStr

/-- The `for tool_call in tool_calls` loop of `GmailAgent.chat`: each
processed call appends one `tool`-role message carrying the serialized
result. -/
def runCalls (env : AgentEnv) : List ToolCall → Session → List HMsg → List ToolCall → LoopOut
  | [], mb, hist, done => { mailbox := mb, hist := hist, processed := done, fault := none }
  | tc :: rest, mb, hist, done =>
    match dispatchCall env mb tc with
    | .error e => { mailbox := mb, hist := hist, processed := done, fault := some e }
    | .ok (mb', r) =>
      runCalls env rest mb' (hist ++ [.tool (env.dumps r)]) (done ++ [tc])

/-- The visible state of a `GmailAgent` (`conversation_history` plus the
owned `MailboxSession`). -/
structure AgentSt where
  history : List HMsg
  mailbox : Session

/-- Outcome of one `GmailAgent.chat` turn: the updated agent state, the
returned text (or the uncaught exception), the number of Language-Model
Capability invocations made, and the tool calls processed. -/
structure ChatOut where
  st : AgentSt
  output : Except PyStr PyStr
  llmCalls : Nat
  executed : List ToolCall

/-- Embedding of `GmailAgent.chat`.  The Language-Model Capability's successive answers are
`env.responses`; an exhausted oracle models the capability raising at the
transport layer (`client.chat` propagates it). -/
def chat (env : AgentEnv) (st : AgentSt) (userMessage : PyStr) : ChatOut :=
  let hist0 := st.history ++ [.user userMessage]
  match env.responses with
  | [] =>
    { st := { history := hist0, mailbox := st.mailbox }
      output := .error (("LLM capability fault").data), llmCalls := 1, executed := [] }
  | r1 :: rest =>
    if r1.tool_calls.isEmpty then
      -- no tool calls: append the assistant text and return it
      { st := { history := hist0 ++ [.assistant r1.content], mailbox := st.mailbox }
        output := .ok r1.content, llmCalls := 1, executed := [] }
    else
      let hist1 := hist0 ++ [.assistantCalls r1]
      let loop := runCalls env r1.tool_calls st.mailbox hist1 []
      match loop.fault with
      | some e =>
        { st := { history := loop.hist, mailbox := loop.mailbox }
          output := .error e, llmCalls := 1, executed := loop.processed }
      | none =>
        match rest with
        | [] =>
          { st := { history := loop.hist, mailbox := loop.mailbox }
            output := .error (("LLM capability fault").data), llmCalls := 2
            executed := loop.processed }
        | r2 :: _ =>
          -- one follow-up call; tool calls in this second response are
          -- never executed, only its text is kept
          { st := { history := loop.hist ++ [.assistant r2.content], mailbox := loop.mailbox }
            output := .ok r2.content, llmCalls := 2, executed := loop.processed }

/-! ## Claim-side definitions

Predicates and reference functions written from the specification's words,
used to state the claims against the embedded code. -/

mutual

/-- Spec side: whether a `text/plain` part exists anywhere in a payload
tree. -/
def containsPlainText : Payload → Bool
  | .mk _ mime parts => mime = ("text/plain").data || containsPlainTextL parts

/-- Spec side: whether a `text/plain` part exists in a list of payloads. -/
def containsPlainTextL : List Payload → Bool
  | [] => false
  | p :: rest => containsPlainText p || containsPlainTextL rest

end

mutual

/-- Spec side: whether any node of a payload tree carries truthy inline body
data. -/
def anyInlineData : Payload → Bool
  | .mk bd _ parts => truthyData bd || anyInlineDataL parts

/-- Spec side: `anyInlineData` over a list of payloads. -/
def anyInlineDataL : List Payload → Bool
  | [] => false
  | p :: rest => anyInlineData p || anyInlineDataL rest

end

mutual

/-- Reference search, written from the amended body-extraction description:
the node's own decoded inline body if its data is non-empty; otherwise the
first of its parts, scanned in order, that yields a body — a `text/plain`
part carrying data yields its decoded body, a `multipart/*` part yields its
recursive result unless that result is empty text (which is skipped), and any
other part yields nothing. -/
def findBody (decode : PyStr → PyStr) (p : Payload) (maxLength : Nat) : Option PyStr :=
  match p with
  | .mk bodyData _ parts =>
    if truthyData bodyData then some ((decode (bodyData.getD [])).take maxLength)
    else findBodyL decode parts maxLength

/-- Search `findBody` over a parts list. -/
def findBodyL (decode : PyStr → PyStr) (parts : List Payload) (maxLength : Nat) :
    Option PyStr :=
  match parts with
  | [] => none
  | part :: rest =>
    if part.mimeType = ("text/plain").data && truthyData part.bodyData then
      some ((decode (part.bodyData.getD [])).take maxLength)
    else if (("multipart/").data).isPrefixOf part.mimeType then
      match findBody decode part maxLength with
      | some s => if s.isEmpty then findBodyL decode rest maxLength else some s
      | none => findBodyL decode rest maxLength
    else findBodyL decode rest maxLength

end

/-- Spec side: the handle assignment `1..K` in the provider's returned order
(`handle = 1-based position`). -/
def zipFrom : Int → List PyStr → List (Int × PyStr)
  | _, [] => []
  | i, m :: rest => (i, m) :: zipFrom (i + 1) rest

/-- Spec side: whether a capability invocation is a send attempt. -/
def CapCall.isSend : CapCall → Bool
  | .send _ => true
  | _ => false

/-- Spec side (C10): the pending draft text and the handle it belongs to are
set together and cleared together. -/
def coupled (s : Session) : Prop :=
  s.last_draft = none ↔ s.last_number = none

instance (s : Session) : Decidable (coupled s) := by
  unfold coupled; infer_instance

/-! ## Concrete capability doubles

Test doubles used by witnesses and counterexamples. -/

/-- A provider double whose initial list succeeds with two ids and whose
metadata fetch faults on the second. -/
def svcMetaFault : GmailSvc :=
  { listMessages := fun _ _ => .ok [("m1").data, ("m2").data]
    getMessage := fun msgId =>
      if msgId = ("m1").data then
        .ok { headers := [((("From").data, ("Alice <alice@example.com>").data))]
              snippet := (("hello").data), threadId := none }
      else .error (("boom").data)
    getMessageFull := fun _ => .error (("unreachable").data)
    sendMessage := fun _ => .error (("unreachable").data) }

/-- A provider double whose initial list request faults. -/
def svcListFault : GmailSvc :=
  { listMessages := fun _ _ => .error (("HttpError 500").data)
    getMessage := fun _ => .error (("unreachable").data)
    getMessageFull := fun _ => .error (("unreachable").data)
    sendMessage := fun _ => .error (("unreachable").data) }

/-- A fully successful provider double with two messages. -/
def svcHappy : GmailSvc :=
  { listMessages := fun _ _ => .ok [("m1").data, ("m2").data]
    getMessage := fun _ =>
      .ok { headers := [((("From").data, ("Alice <alice@example.com>").data)),
              ((("Subject").data, ("Hello").data))]
            snippet := (("hi there").data), threadId := some (("t1").data) }
    getMessageFull := fun _ =>
      .ok { headers := [((("From").data, ("Alice <alice@example.com>").data)),
              ((("Subject").data, ("Hello").data))]
            payload := .mk (some (("Question?").data)) (("text/plain").data) []
            threadId := some (("t1").data) }
    sendMessage := fun _ => .ok () }

/-- A text-generation capability double that always succeeds. -/
def llmOk : GenCap := fun _ _ => .ok (("Sounds good.").data)

/-- The session state after a successful `svcHappy` listing of two
messages. -/
def sessionTwo : Session :=
  { index_map := [(1, ("m1").data), (2, ("m2").data)], last_draft := none,
    last_number := none, email_cache := [] }

/-- The summary entries of a successful `svcHappy` listing. -/
def happyEntry (n : Int) (msgId : PyStr) : EmailEntry :=
  { number := n, id := msgId, from_ := ("Alice <alice@example.com>").data
    subject := ("Hello").data, date := [], snippet := ("hi there").data }

/-- A serializer double for `json.dumps`. -/
def dumpsStub : ToolRes → PyStr := fun _ => ("serialized").data

/-- A JSON parser double that always reports a decode error. -/
def jsonLoadsStub : JsonLoads := fun _ => .error ()

/-- The empty agent state of a fresh `GmailAgent`. -/
def agentSt0 : AgentSt := { history := [], mailbox := Session.init }

/-- A model response carrying no text and a single tool call. -/
def amsgCall (name : PyStr) (args : FArgs) : AMsg :=
  { content := [], tool_calls := [{ name := name, args := args }] }

/-- A model response carrying only text. -/
def amsgText (t : PyStr) : AMsg :=
  { content := t, tool_calls := [] }

/-- An agent environment whose first model response requests one well-formed
`list_emails` call and whose second carries only text. -/
def envListTool : AgentEnv :=
  { svc := svcHappy, decode := id, llmGen := llmOk
    responses := [amsgCall (("list_emails").data) (.obj []), amsgText (("done").data)]
    jsonLoads := jsonLoadsStub, dumps := dumpsStub }

/-- An agent environment whose first model response requests `read_email`
with an empty argument mapping (missing the required `email_number`). -/
def envReadNoArgs : AgentEnv :=
  { svc := svcHappy, decode := id, llmGen := llmOk
    responses := [amsgCall (("read_email").data) (.obj []), amsgText (("done").data)]
    jsonLoads := jsonLoadsStub, dumps := dumpsStub }

/-- An agent environment whose first model response requests `read_email`
with an unparsable string argument payload. -/
def envReadBadJson : AgentEnv :=
  { svc := svcHappy, decode := id, llmGen := llmOk
    responses := [amsgCall (("read_email").data) (.text (("not json").data)),
      amsgText (("ok").data)]
    jsonLoads := jsonLoadsStub, dumps := dumpsStub }

/-! ## Theorems -/

mutual

/-- Extraction `extract_email_body` computes the reference search `findBody`, with
empty text standing for "nothing found". -/
theorem extract_eq_findBody (decode : PyStr → PyStr) (p : Payload) (maxLength : Nat) :
    extract_email_body decode p maxLength = (findBody decode p maxLength).getD [] := by
  match p with
  | .mk bd mime parts =>
    rw [extract_email_body, findBody]
    by_cases h : truthyData bd
    · simp [h]
    · simp [h, extractFromParts_eq_findBodyL decode parts maxLength]

/-- Scan `extractFromParts` computes `findBodyL`. -/
theorem extractFromParts_eq_findBodyL (decode : PyStr → PyStr) (parts : List Payload)
    (maxLength : Nat) :
    extractFromParts decode parts maxLength = (findBodyL decode parts maxLength).getD [] := by
  match parts with
  | [] => rw [extractFromParts, findBodyL]; rfl
  | part :: rest =>
    rw [extractFromParts, findBodyL]
    by_cases h1 : part.mimeType = ("text/plain").data && truthyData part.bodyData
    · simp [h1]
    · simp only [h1, if_neg, Bool.false_eq_true, if_false]
      by_cases h2 : (("multipart/").data).isPrefixOf part.mimeType
      · simp only [h2, if_true]
        rw [extract_eq_findBody decode part maxLength]
        cases hf : findBody decode part maxLength with
        | none => simp [extractFromParts_eq_findBodyL decode rest maxLength]
        | some s =>
          by_cases hs : s.isEmpty
          · simp [hs, List.isEmpty_iff.mp hs,
              extractFromParts_eq_findBodyL decode rest maxLength]
          · simp [hs]
      · simp [h2, extractFromParts_eq_findBodyL decode rest maxLength]

end

mutual

/-- If no node of the tree carries inline body data, extraction yields empty
text. -/
theorem extract_empty_of_noData (decode : PyStr → PyStr) (p : Payload) (maxLength : Nat)
    (h : anyInlineData p = false) : extract_email_body decode p maxLength = [] := by
  match p with
  | .mk bd mime parts =>
    rw [anyInlineData] at h
    rw [extract_email_body]
    simp only [Bool.or_eq_false_iff] at h
    simp [h.1, extractFromParts_empty_of_noData decode parts maxLength h.2]

/-- List version of `extract_empty_of_noData`. -/
theorem extractFromParts_empty_of_noData (decode : PyStr → PyStr) (parts : List Payload)
    (maxLength : Nat) (h : anyInlineDataL parts = false) :
    extractFromParts decode parts maxLength = [] := by
  match parts with
  | [] => rw [extractFromParts]
  | part :: rest =>
    rw [anyInlineDataL] at h
    simp only [Bool.or_eq_false_iff] at h
    rw [extractFromParts]
    have hbd : truthyData part.bodyData = false := by
      match part, h.1 with
      | .mk bd' _ _, h1 => rw [anyInlineData] at h1; simp only [Bool.or_eq_false_iff] at h1
                           exact h1.1
    simp only [hbd, Bool.and_false, Bool.false_eq_true, if_false]
    by_cases h2 : (("multipart/").data).isPrefixOf part.mimeType
    · simp [h2, extract_empty_of_noData decode part maxLength h.1,
        extractFromParts_empty_of_noData decode rest maxLength h.2]
    · simp [h2, extractFromParts_empty_of_noData decode rest maxLength h.2]

end

/-- C7 (amended): `extract_email_body` returns the payload's own decoded
inline body (truncated to `maxLength`) when its data field is non-empty;
otherwise it performs the in-order, multipart-recursing scan described by
`findBody`, in which a `text/plain` part must carry data to be chosen, a
multipart part's own inline data (if any) is returned by the recursion, and a
part whose recursive result is empty text is skipped; and it returns the
empty string whenever no node of the tree carries inline body data. -/
theorem C7_extract_email_body_amended :
    (∀ (decode : PyStr → PyStr) (bd : Option PyStr) (mime : PyStr) (parts : List Payload)
        (maxLength : Nat), truthyData bd = true →
        extract_email_body decode (.mk bd mime parts) maxLength =
          (decode (bd.getD [])).take maxLength) ∧
    (∀ (decode : PyStr → PyStr) (p : Payload) (maxLength : Nat),
        extract_email_body decode p maxLength = (findBody decode p maxLength).getD []) ∧
    (∀ (decode : PyStr → PyStr) (p : Payload) (maxLength : Nat),
        anyInlineData p = false → extract_email_body decode p maxLength = []) :=
  ⟨fun decode bd mime parts maxLength h => by rw [extract_email_body]; simp [h],
   extract_eq_findBody,
   extract_empty_of_noData⟩

/-- Witness for C7's amended theorem at concrete inputs. -/
theorem C7_extract_email_body_amended_witness :
    extract_email_body id (.mk (some (("Hello").data)) [] []) 3000 =
      (id ((some (("Hello").data)).getD [])).take 3000 ∧
    extract_email_body id (.mk none (("multipart/mixed").data) []) 3000 = [] :=
  ⟨C7_extract_email_body_amended.1 id (some (("Hello").data)) [] [] 3000 (by decide),
   C7_extract_email_body_amended.2.2 id (.mk none (("multipart/mixed").data) []) 3000
     (by decide)⟩

/-- C7 counterexample: a payload with no inline data whose single part is a
`multipart/mixed` container carrying inline body data.  No `text/plain` part
exists anywhere in the tree, yet `extract_email_body` returns that
container's decoded data rather than the empty string, contradicting the
claim's final clause. -/
theorem C7_extract_email_body_cex :
    extract_email_body id
        (.mk none [] [.mk (some (("Hi").data)) (("multipart/mixed").data) []]) 3000 =
      ("Hi").data ∧
    containsPlainText
        (.mk none [] [.mk (some (("Hi").data)) (("multipart/mixed").data) []]) = false ∧
    ("Hi").data ≠ ([] : PyStr) := by
  refine ⟨by decide, by decide, by decide⟩

theorem pyStripL_cons {c : Char} {t : PyStr} (h : pyWs c = false) :
    pyStripL (c :: t) = c :: t := by
  simp [pyStripL, List.dropWhile_cons, h]

theorem pyStripR_concat {c : Char} {s : PyStr} (h : pyWs c = false) :
    pyStripR (s ++ [c]) = s ++ [c] := by
  simp [pyStripR, List.dropWhile_cons, h]

theorem stripAtPat_id (check : PyStr → Bool) {s : PyStr} (h : '\n' ∉ s) :
    stripAtPat check s = s := by
  induction s with
  | nil => rfl
  | cons c t ih =>
    simp only [List.mem_cons, not_or] at h
    rw [stripAtPat]
    have hc : c ≠ '\n' := Ne.symm h.1
    simp [hc, ih h.2]

theorem fallback_no_newline {subject : PyStr} (h : '\n' ∉ subject) :
    '\n' ∉ fallbackSentence subject := by
  unfold fallbackSentence
  intro hm
  rcases List.mem_append.mp hm with h1 | h2
  · rcases List.mem_append.mp h1 with h3 | h4
    · exact absurd h3 (by decide)
    · exact h h4
  · exact absurd h2 (by decide)

theorem pyStrip_fallback (subject : PyStr) :
    pyStrip (fallbackSentence subject) = fallbackSentence subject := by
  have hL : pyStripL (fallbackSentence subject) = fallbackSentence subject := by
    rw [show fallbackSentence subject =
        'T' :: (("hank you for your email regarding \x27").data ++ subject ++
          ("\x27. I will review and respond shortly.").data) from rfl]
    exact pyStripL_cons (by decide)
  have hR : pyStripR (fallbackSentence subject) = fallbackSentence subject := by
    have e2 : ("\x27. I will review and respond shortly.").data =
        ("\x27. I will review and respond shortly").data ++ ['.'] := by decide
    have e : fallbackSentence subject =
        (("Thank you for your email regarding \x27").data ++ subject ++
          ("\x27. I will review and respond shortly").data) ++ ['.'] := by
      unfold fallbackSentence
      rw [e2]
      simp [List.append_assoc]
    rw [e, pyStripR_concat (by decide)]
  rw [pyStrip, hL, hR]

theorem cleanup_fallback {subject : PyStr} (h : '\n' ∉ subject) :
    cleanupClosings (fallbackSentence subject) = fallbackSentence subject := by
  have hn := fallback_no_newline h
  rw [cleanupClosings, stripAtPat_id pat1 hn, pyStrip_fallback,
    stripAtPat_id pat2 hn, pyStrip_fallback, stripAtPat_id pat3 hn, pyStrip_fallback]

/-- Every draft produced by `generate_draft` is some body text followed by a
blank line and the selected tone's signature. -/
theorem generate_draft_shape (llm : GenCap) (from_addr subject body tone : PyStr) :
    ∃ mainText, generate_draft llm from_addr subject body tone =
      mainText ++ ("\n\n").data ++ (tone_configs tone).signature := by
  rw [generate_draft]
  cases llm (draftPrompt from_addr subject body tone (tone_configs tone).instruction)
      (tone_configs tone).temperature with
  | error e => exact ⟨fallbackSentence subject, rfl⟩
  | ok draft => exact ⟨_, rfl⟩

/-- Unknown tones select the `"normal"` configuration. -/
theorem tone_configs_unknown (tone : PyStr) (h1 : tone ≠ ("friendly").data)
    (h2 : tone ≠ ("professional").data) : tone_configs tone = normalConfig := by
  rw [tone_configs]
  by_cases h : tone = ("normal").data <;> simp [h, h1, h2]

/-- C5 (amended): for every tone (unknown tones selecting normal's
configuration) and every model output, the draft ends with a blank line
followed exactly by that tone's fixed signature block; the cleanup applies
each of its three closing patterns once, so a single trailing closing phrase
(optionally followed by a name line) is removed, but a model output stacking
three or more closing lines can leave a closing phrase in the body (see the
counterexample). -/
theorem C5_generate_draft_signature_amended :
    (∀ (llm : GenCap) (from_addr subject body tone : PyStr),
        ∃ mainText, generate_draft llm from_addr subject body tone =
          mainText ++ ("\n\n").data ++ (tone_configs tone).signature) ∧
    (∀ tone : PyStr, tone ≠ ("friendly").data → tone ≠ ("professional").data →
        tone_configs tone = normalConfig) ∧
    generate_draft (fun _ _ => .ok (("Hi\nThanks,\nAyaan Smith").data))
        (("a@b.com").data) (("Subject").data) (("Body").data) (("friendly").data) =
      ("Hi").data ++ ("\n\n").data ++ friendlyConfig.signature :=
  ⟨generate_draft_shape, tone_configs_unknown, by decide⟩

/-- Witness for C5's amended theorem at concrete inputs. -/
theorem C5_generate_draft_signature_amended_witness :
    tone_configs (("casual").data) = normalConfig :=
  C5_generate_draft_signature_amended.2.1 (("casual").data) (by decide) (by decide)

/-- C5 counterexample: with the model output `"Hi\nThanks\nThanks\nThanks"`,
the returned draft keeps a `"Thanks"` closing line in the body right before
the appended signature — running the cleanup again would strip more — so the
claim that no duplicate closing phrase precedes the signature fails. -/
theorem C5_generate_draft_signature_cex :
    generate_draft (fun _ _ => .ok (("Hi\nThanks\nThanks\nThanks").data))
        (("a@b.com").data) (("Subject").data) (("Body").data) (("normal").data) =
      ("Hi\nThanks").data ++ ("\n\n").data ++ normalConfig.signature ∧
    cleanupClosings (("Hi\nThanks").data) ≠ ("Hi\nThanks").data := by
  exact ⟨by decide, by decide⟩

/-- C6 (amended): if the Language-Model Capability call inside the draft
generator raises, the draft generator returns (never raises) the
deterministic fallback sentence referencing the subject followed by the
selected tone's signature; the same holds for an empty or whitespace-only
result provided the subject contains no newline (a newline in the subject can
make the closing-pattern cleanup truncate the fallback sentence — see the
counterexample). -/
theorem C6_generate_draft_fallback_amended :
    (∀ (llm : GenCap) (from_addr subject body tone e : PyStr),
        llm (draftPrompt from_addr subject body tone (tone_configs tone).instruction)
            (tone_configs tone).temperature = .error e →
        generate_draft llm from_addr subject body tone =
          fallbackSentence subject ++ ("\n\n").data ++ (tone_configs tone).signature) ∧
    (∀ (llm : GenCap) (from_addr subject body tone r : PyStr),
        '\n' ∉ subject →
        llm (draftPrompt from_addr subject body tone (tone_configs tone).instruction)
            (tone_configs tone).temperature = .ok r →
        pyStrip r = [] →
        generate_draft llm from_addr subject body tone =
          fallbackSentence subject ++ ("\n\n").data ++ (tone_configs tone).signature) := by
  constructor
  · intro llm from_addr subject body tone e h
    rw [generate_draft, h]
  · intro llm from_addr subject body tone r hnl h hws
    rw [generate_draft, h]
    simp [hws, pyStrip_fallback, cleanup_fallback hnl]

/-- Witness for C6's amended theorem: a raising capability and a
whitespace-only result, both at concrete inputs. -/
theorem C6_generate_draft_fallback_amended_witness :
    generate_draft (fun _ _ => .error (("connection refused").data))
        (("a@b.com").data) (("Meeting").data) (("Body").data) (("normal").data) =
      fallbackSentence (("Meeting").data) ++ ("\n\n").data ++
        (tone_configs (("normal").data)).signature ∧
    generate_draft (fun _ _ => .ok (("  ").data))
        (("a@b.com").data) (("Meeting").data) (("Body").data) (("professional").data) =
      fallbackSentence (("Meeting").data) ++ ("\n\n").data ++
        (tone_configs (("professional").data)).signature :=
  ⟨C6_generate_draft_fallback_amended.1 (fun _ _ => .error (("connection refused").data))
      (("a@b.com").data) (("Meeting").data) (("Body").data) (("normal").data)
      (("connection refused").data) rfl,
   C6_generate_draft_fallback_amended.2 (fun _ _ => .ok (("  ").data))
      (("a@b.com").data) (("Meeting").data) (("Body").data) (("professional").data)
      (("  ").data) (by decide) rfl (by decide)⟩

/-- C6 counterexample: with an empty model result and the subject
`"a\nAyaan"`, the fallback sentence passes through the closing-pattern
cleanup, which truncates it at the newline, so the returned draft is not the
fallback sentence plus signature. -/
theorem C6_generate_draft_fallback_cex :
    generate_draft (fun _ _ => .ok []) (("a@b.com").data) (("a\nAyaan").data)
        (("Body").data) (("normal").data) =
      ("Thank you for your email regarding \x27a").data ++ ("\n\n").data ++
        normalConfig.signature ∧
    generate_draft (fun _ _ => .ok []) (("a@b.com").data) (("a\nAyaan").data)
        (("Body").data) (("normal").data) ≠
      fallbackSentence (("a\nAyaan").data) ++ ("\n\n").data ++ normalConfig.signature := by
  exact ⟨by decide, by decide⟩

/-- A successful listing loop appends exactly the handle assignment
`i, i+1, …` over the messages, touches nothing else in the session, and
returns one summary per message. -/
theorem listLoop_ok (svc : GmailSvc) (msgs : List PyStr) :
    ∀ (i : Int) (s : Session) (acc : List EmailEntry) (calls : List CapCall)
      (s' : Session) (es : List EmailEntry) (cs : List CapCall),
      listLoop svc msgs i s acc calls = (s', .ok es, cs) →
      s' = { s with index_map := s.index_map ++ zipFrom i msgs } ∧
        es.length = acc.length + msgs.length := by
  induction msgs with
  | nil =>
    intro i s acc calls s' es cs h
    rw [listLoop] at h
    injection h with h1 h2
    injection h2 with h2 h3
    injection h2 with h2
    subst h1 h2
    simp [zipFrom]
  | cons m rest ih =>
    intro i s acc calls s' es cs h
    rw [listLoop] at h
    cases hm : svc.getMessage m with
    | error e => rw [hm] at h; simp at h
    | ok data =>
      rw [hm] at h
      simp only at h
      obtain ⟨h1, h2⟩ := ih _ _ _ _ _ _ _ h
      constructor
      · rw [h1]
        simp [zipFrom, List.append_assoc]
      · rw [h2]
        simp [List.length_append]
        omega

/-- A listing loop aborted by a metadata fault leaves exactly the handles
assigned before the faulting message and surfaces that fault's message. -/
theorem listLoop_err (svc : GmailSvc) (msgs : List PyStr) :
    ∀ (i : Int) (s : Session) (acc : List EmailEntry) (calls : List CapCall)
      (s' : Session) (e : PyStr) (cs : List CapCall),
      listLoop svc msgs i s acc calls = (s', .err e, cs) →
      ∃ pre mid post, msgs = pre ++ mid :: post ∧ svc.getMessage mid = .error e ∧
        s' = { s with index_map := s.index_map ++ zipFrom i pre } := by
  induction msgs with
  | nil =>
    intro i s acc calls s' e cs h
    rw [listLoop] at h
    simp at h
  | cons m rest ih =>
    intro i s acc calls s' e cs h
    rw [listLoop] at h
    cases hm : svc.getMessage m with
    | error e' =>
      rw [hm] at h
      injection h with h1 h2
      injection h2 with h2 h3
      injection h2 with h2
      subst h1 h2
      exact ⟨[], m, rest, rfl, hm, by simp [zipFrom]⟩
    | ok data =>
      rw [hm] at h
      simp only at h
      obtain ⟨pre, mid, post, hsplit, hfault, hs⟩ := ih _ _ _ _ _ _ _ h
      refine ⟨m :: pre, mid, post, by simp [hsplit], hfault, ?_⟩
      rw [hs]
      simp [zipFrom, List.append_assoc]

/-- C1 (amended): every provider fault inside `list_emails` is surfaced as
`{error: message}`; if the fault is the initial list request, the IndexMap is
untouched; if the fault is a per-message metadata fetch, the IndexMap holds
exactly the fresh handles assigned to the messages before the faulting one —
the entries that existed before the call having been cleared. -/
theorem C1_list_emails_fault_amended (svc : GmailSvc) (s : Session) (mr : Int) (q : PyStr) :
    (∀ e, svc.listMessages q mr = .error e →
        list_emails svc s mr q = (s, .err e, [.list q mr])) ∧
    (∀ msgs s' e cs, svc.listMessages q mr = .ok msgs →
        list_emails svc s mr q = (s', .err e, cs) →
        ∃ pre mid post, msgs = pre ++ mid :: post ∧ svc.getMessage mid = .error e ∧
          s' = { s with index_map := zipFrom 1 pre }) := by
  constructor
  · intro e he
    rw [list_emails, he]
  · intro msgs s' e cs hok h
    rw [list_emails, hok] at h
    by_cases hmt : msgs.isEmpty
    · simp [hmt] at h
    · simp only [hmt, Bool.false_eq_true, if_false] at h
      obtain ⟨pre, mid, post, hsplit, hfault, hs⟩ := listLoop_err svc msgs _ _ _ _ _ _ _ h
      exact ⟨pre, mid, post, hsplit, hfault, by rw [hs]; rfl⟩

/-- Witness for C1's amended theorem: a faulting list request surfaces the
fault's message and leaves the session untouched. -/
theorem C1_list_emails_fault_amended_witness :
    list_emails svcListFault
        { index_map := [(1, ("old").data)], last_draft := none, last_number := none,
          email_cache := [] } 10 (("is:unread").data) =
      ({ index_map := [(1, ("old").data)], last_draft := none, last_number := none,
          email_cache := [] }, .err (("HttpError 500").data), [.list (("is:unread").data) 10]) :=
  (C1_list_emails_fault_amended svcListFault
      { index_map := [(1, ("old").data)], last_draft := none, last_number := none,
        email_cache := [] } 10 (("is:unread").data)).1
    (("HttpError 500").data) rfl

/-- C1 counterexample: with a provider whose metadata fetch faults on the
second message, `list_emails` returns `{error}` but the IndexMap is *not*
what it was before the call — the old handle is gone and a fresh partial
assignment is in place. -/
theorem C1_list_emails_fault_cex :
    (list_emails svcMetaFault
        { index_map := [(1, ("old").data)], last_draft := none, last_number := none,
          email_cache := [] } 10 (("is:unread").data)).2.1 = .err (("boom").data) ∧
    (list_emails svcMetaFault
        { index_map := [(1, ("old").data)], last_draft := none, last_number := none,
          email_cache := [] } 10 (("is:unread").data)).1.index_map = [(1, ("m1").data)] ∧
    [(1, ("m1").data)] ≠ [(1, ("old").data)] := by
  exact ⟨by decide, by decide, by decide⟩

/-- Keys assigned by `zipFrom i msgs` lie in `[i, i + msgs.length)`. -/
theorem zipFrom_mem_key (msgs : List PyStr) :
    ∀ (i : Int) (e : Int × PyStr), e ∈ zipFrom i msgs →
      i ≤ e.1 ∧ e.1 < i + msgs.length := by
  induction msgs with
  | nil => intro i e h; simp [zipFrom] at h
  | cons m rest ih =>
    intro i e h
    rw [zipFrom] at h
    rcases List.mem_cons.mp h with h1 | h2
    · subst h1
      simp
    · have := ih (i + 1) e h2
      simp only [List.length_cons]
      push_cast
      omega

/-- A handle outside the assigned range resolves to nothing. -/
theorem dget_zipFrom_none (msgs : List PyStr) (i n : Int)
    (h : n < i ∨ i + msgs.length ≤ n) : dget (zipFrom i msgs) n = none := by
  rw [dget, List.find?_eq_none.mpr]
  · rfl
  · intro e he
    have := zipFrom_mem_key msgs i e he
    simp only [decide_eq_true_eq]
    omega

/-- When a handle is absent from the index map, `read_email` and `send_reply`
return the lookup error without touching the session and without any Mail
Capability call. -/
theorem lookup_fail_ops (s' : Session) (n : Int) (hnone : dget s'.index_map n = none) :
    (∀ (svc' : GmailSvc) (decode : PyStr → PyStr) (llm : GenCap) (gd : Bool) (tone : PyStr),
        read_email svc' decode llm s' n gd tone = (s', .err (invalidNumberMsg n), [])) ∧
    (∀ (svc' : GmailSvc) (rb : Option PyV),
        send_reply svc' s' n rb = (s', .err (invalidNumberMsg n), [])) := by
  constructor
  · intro svc' decode llm gd tone
    rw [read_email, hnone]
  · intro svc' rb
    rw [send_reply.eq_def, hnone]

/-- The listing loop only ever yields `.ok` or `.err`. -/
theorem listLoop_ne_empty (svc : GmailSvc) (msgs : List PyStr) :
    ∀ (i : Int) (s : Session) (acc : List EmailEntry) (calls : List CapCall)
      (s' : Session) (m : PyStr) (cs : List CapCall),
      listLoop svc msgs i s acc calls ≠ (s', .empty m, cs) := by
  induction msgs with
  | nil =>
    intro i s acc calls s' m cs h
    rw [listLoop] at h
    simp at h
  | cons a rest ih =>
    intro i s acc calls s' m cs h
    rw [listLoop] at h
    cases ha : svc.getMessage a with
    | error e => rw [ha] at h; simp at h
    | ok d =>
      rw [ha] at h
      simp only at h
      exact ih _ _ _ _ _ _ _ h

/-- C2 (confirmed): after a listing whose provider calls all succeed, the
IndexMap maps exactly the handles `1..K` to the returned message ids in the
provider's order (`[]` for an empty result), and any subsequent `read_email`
or `send_reply` with a handle outside `[1,K]` returns the lookup error with
no Mail Capability call and no state change. -/
theorem C2_list_emails_handles (svc : GmailSvc) (s : Session) (mr : Int) (q : PyStr)
    (msgs : List PyStr) (hok : svc.listMessages q mr = .ok msgs) :
    (∀ s' es cs, list_emails svc s mr q = (s', .ok es, cs) →
        s'.index_map = zipFrom 1 msgs ∧ es.length = msgs.length ∧
        ∀ n : Int, n < 1 ∨ (msgs.length : Int) < n →
          (∀ (svc' : GmailSvc) (decode : PyStr → PyStr) (llm : GenCap) (gd : Bool)
              (tone : PyStr),
              read_email svc' decode llm s' n gd tone =
                (s', .err (invalidNumberMsg n), [])) ∧
          (∀ (svc' : GmailSvc) (rb : Option PyV),
              send_reply svc' s' n rb = (s', .err (invalidNumberMsg n), []))) ∧
    (∀ s' m cs, list_emails svc s mr q = (s', .empty m, cs) →
        s'.index_map = [] ∧
        ∀ n : Int,
          (∀ (svc' : GmailSvc) (decode : PyStr → PyStr) (llm : GenCap) (gd : Bool)
              (tone : PyStr),
              read_email svc' decode llm s' n gd tone =
                (s', .err (invalidNumberMsg n), [])) ∧
          (∀ (svc' : GmailSvc) (rb : Option PyV),
              send_reply svc' s' n rb = (s', .err (invalidNumberMsg n), []))) := by
  constructor
  · intro s' es cs h
    rw [list_emails, hok] at h
    by_cases hmt : msgs.isEmpty
    · simp [hmt] at h
    · simp only [hmt, Bool.false_eq_true, if_false] at h
      obtain ⟨hs, hlen⟩ := listLoop_ok svc msgs _ _ _ _ _ _ _ h
      have hmap : s'.index_map = zipFrom 1 msgs := by rw [hs]; rfl
      refine ⟨hmap, by simpa using hlen, ?_⟩
      intro n hn
      exact lookup_fail_ops s' n (by rw [hmap]; exact dget_zipFrom_none msgs 1 n (by omega))
  · intro s' m cs h
    rw [list_emails, hok] at h
    by_cases hmt : msgs.isEmpty
    · simp only [hmt, if_true] at h
      injection h with h1 h2
      subst h1
      exact ⟨rfl, fun n => lookup_fail_ops _ n rfl⟩
    · simp only [hmt, Bool.false_eq_true, if_false] at h
      exact absurd h (listLoop_ne_empty svc msgs _ _ _ _ _ _ _)

/-- Witness for C2 at a concrete successful two-message listing: the index
map is exactly `1 ↦ m1, 2 ↦ m2`, and handles `3` and `0` fail the lookup
without any capability call. -/
theorem C2_list_emails_handles_witness :
    sessionTwo.index_map = zipFrom 1 [("m1").data, ("m2").data] ∧
    read_email svcListFault id llmOk sessionTwo 3 true (("normal").data) =
      (sessionTwo, .err (invalidNumberMsg 3), []) ∧
    send_reply svcListFault sessionTwo 0 none =
      (sessionTwo, .err (invalidNumberMsg 0), []) := by
  obtain ⟨h1, _h2, h3⟩ :=
    (C2_list_emails_handles svcHappy Session.init 10 (("is:unread").data)
        [("m1").data, ("m2").data] rfl).1
      sessionTwo [happyEntry 1 (("m1").data), happyEntry 2 (("m2").data)]
      [.list (("is:unread").data) 10, .getMeta (("m1").data), .getMeta (("m2").data)]
      (by decide)
  exact ⟨h1, (h3 3 (by decide)).1 svcListFault id llmOk true (("normal").data),
    (h3 0 (by decide)).2 svcListFault none⟩

/-- C3 (confirmed): for a `send_reply` call with the body omitted and the
handle resolvable in the IndexMap (the code's own membership test: present
with a truthy id), a send is attempted only if a pending draft exists and its
recorded handle equals this handle; if no draft exists or it belongs to a
different handle, the call returns the no-draft error, unchanged state, and
no Mail Capability call at all. -/
theorem C3_send_reply_draft_gate (svc : GmailSvc) (s : Session) (n : Int) (emailId : PyStr)
    (hid : dget s.index_map n = some emailId) (hne : emailId.isEmpty = false) :
    ((send_reply svc s n none).2.2.any CapCall.isSend = true →
      s.last_draft ≠ none ∧ s.last_number = some n) ∧
    (s.last_draft = none ∨ s.last_number ≠ some n →
      send_reply svc s n none = (s, .err noDraftMsg, [])) := by
  rcases hld : s.last_draft with _ | d
  · have hrun : send_reply svc s n none = (s, .err noDraftMsg, []) := by
      rw [send_reply.eq_def, hid]
      simp [hne, hld, resolveReplyBody]
    constructor
    · rw [hrun]
      intro hsend
      simp at hsend
    · intro _
      exact hrun
  · by_cases hln : s.last_number = some n
    · constructor
      · intro _
        exact ⟨by simp, hln⟩
      · intro hdisj
        rcases hdisj with h1 | h2
        · simp at h1
        · exact absurd hln h2
    · have hrun : send_reply svc s n none = (s, .err noDraftMsg, []) := by
        rw [send_reply.eq_def, hid]
        simp [hne, hld, hln, resolveReplyBody]
      constructor
      · rw [hrun]
        intro hsend
        simp at hsend
      · intro _
        exact hrun

/-- Witness for C3: in a freshly listed session with no pending draft,
`send_reply 1` with no body returns the no-draft error and sends nothing. -/
theorem C3_send_reply_draft_gate_witness :
    send_reply svcListFault sessionTwo 1 none = (sessionTwo, .err noDraftMsg, []) :=
  (C3_send_reply_draft_gate svcListFault sessionTwo 1 (("m1").data) (by decide)
      (by decide)).2 (Or.inl (by decide))

/-- C4 (confirmed): when `send_reply` succeeds, the pending draft is cleared
exactly when it belonged to this handle — so a subsequent bodyless
`send_reply` for the same handle returns the no-draft error — and is left in
place when it belonged to a different handle. -/
theorem C4_send_reply_clears_draft (svc : GmailSvc) (s : Session) (n : Int)
    (rb : Option PyV) (s' : Session) (sentTo subj : PyStr) (cs : List CapCall)
    (h : send_reply svc s n rb = (s', .ok sentTo subj, cs)) :
    (s.last_number = some n →
      s'.last_draft = none ∧ s'.last_number = none ∧
      ∀ svc' : GmailSvc, send_reply svc' s' n none = (s', .err noDraftMsg, [])) ∧
    (s.last_number ≠ some n →
      s'.last_draft = s.last_draft ∧ s'.last_number = s.last_number) := by
  rcases hdg : dget s.index_map n with _ | emailId
  · rw [send_reply.eq_def, hdg] at h
    simp at h
  · rw [send_reply.eq_def, hdg] at h
    by_cases hne : emailId.isEmpty
    · simp [hne] at h
    · simp only [hne, Bool.false_eq_true, if_false] at h
      rcases hbv : resolveReplyBody s n rb with _ | bv
      · rw [hbv] at h
        simp at h
      · rw [hbv] at h
        rcases hgm : svc.getMessage emailId with e | orig
        · rw [hgm] at h
          simp at h
        · rw [hgm] at h
          simp only at h
          rcases bv with bn | body | _
          · simp at h
          · simp only at h
            rcases hsm : svc.sendMessage (create_reply_message
                (parse_email_address (headerGet orig.headers (("From").data) []))
                (headerGet orig.headers (("Subject").data) []) body orig.threadId) with
              e | u
            · rw [hsm] at h
              simp at h
            · rw [hsm] at h
              simp only [Prod.mk.injEq] at h
              obtain ⟨hs, _, _⟩ := h
              constructor
              · intro hln
                rw [if_pos hln] at hs
                constructor
                · rw [← hs]
                · constructor
                  · rw [← hs]
                  · intro svc'
                    rw [send_reply.eq_def]
                    rw [show dget s'.index_map n = some emailId from by rw [← hs]; exact hdg]
                    have hld' : s'.last_draft = none := by rw [← hs]
                    simp [hne, hld', resolveReplyBody]
              · intro hln
                rw [if_neg hln] at hs
                rw [← hs]
                exact ⟨rfl, rfl⟩
          · simp at h

/-- Witness for C4: a successful send for handle 1 with a pending draft for
handle 1 clears the draft, and re-sending without a body then fails. -/
theorem C4_send_reply_clears_draft_witness :
    sessionTwo.last_draft = none ∧ sessionTwo.last_number = none ∧
    send_reply svcHappy sessionTwo 1 none = (sessionTwo, .err noDraftMsg, []) := by
  obtain ⟨h1, h2, h3⟩ :=
    (C4_send_reply_clears_draft svcHappy
        { sessionTwo with last_draft := some (("Draft text").data), last_number := some 1 }
        1 none sessionTwo (("alice@example.com").data) (("Re: Hello").data)
        [.getMeta (("m1").data),
          .send (create_reply_message (("alice@example.com").data) (("Hello").data)
            (("Draft text").data) (some (("t1").data)))]
        (by decide)).1 rfl
  exact ⟨h1, h2, h3 svcHappy⟩

/-- C10 (confirmed): every `MailboxSession` operation — construction, clear,
listing, reading, draft regeneration, sending — preserves the invariant that
`last_draft` is `None` exactly when `last_number` is `None`: the pending
draft text and its handle are set together and cleared together. -/
theorem C10_pending_draft_coupling :
    coupled Session.init ∧
    (∀ s, coupled (Session.clear s)) ∧
    (∀ (svc : GmailSvc) (s : Session) (mr : Int) (q : PyStr), coupled s →
        coupled (list_emails svc s mr q).1) ∧
    (∀ (svc : GmailSvc) (decode : PyStr → PyStr) (llm : GenCap) (s : Session)
        (n : Int) (gd : Bool) (tone : PyStr), coupled s →
        coupled (read_email svc decode llm s n gd tone).1) ∧
    (∀ (llm : GenCap) (s : Session) (n : Int) (tone : PyStr), coupled s →
        coupled (regenerate_draft llm s n tone).1) ∧
    (∀ (svc : GmailSvc) (s : Session) (n : Int) (rb : Option PyV), coupled s →
        coupled (send_reply svc s n rb).1) := by
  refine ⟨by decide, fun s => by simp only [Session.clear]; decide, ?_, ?_, ?_, ?_⟩
  · intro svc s mr q hc
    rw [list_emails]
    rcases svc.listMessages q mr with e | msgs
    · exact hc
    · simp only
      by_cases hmt : msgs.isEmpty
      · simp only [hmt, if_true]
        exact hc
      · simp only [hmt, Bool.false_eq_true, if_false]
        rcases hres : listLoop svc msgs 1 { s with index_map := [] } [] [.list q mr] with
          ⟨s', r, cs⟩
        show coupled s'
        rcases r with es | m | e
        · obtain ⟨hs, _⟩ := listLoop_ok svc msgs _ _ _ _ _ _ _ hres
          rw [hs]
          exact hc
        · exact absurd hres (listLoop_ne_empty svc msgs _ _ _ _ _ _ _)
        · obtain ⟨pre, mid, post, _, _, hs⟩ := listLoop_err svc msgs _ _ _ _ _ _ _ hres
          rw [hs]
          exact hc
  · intro svc decode llm s n gd tone hc
    rw [read_email.eq_def]
    rcases dget s.index_map n with _ | emailId
    · exact hc
    · simp only
      by_cases hne : emailId.isEmpty
      · simp only [hne, if_true]
        exact hc
      · simp only [hne, Bool.false_eq_true, if_false]
        rcases svc.getMessageFull emailId with e | msg
        · exact hc
        · simp only
          cases gd with
          | false => exact hc
          | true => simp [coupled]
  · intro llm s n tone hc
    rw [regenerate_draft.eq_def]
    rcases dget s.email_cache n with _ | cached
    · exact hc
    · simp [coupled]
  · intro svc s n rb hc
    rcases hout : send_reply svc s n rb with ⟨s', r, cs⟩
    show coupled s'
    rw [send_reply.eq_def] at hout
    rcases hdg : dget s.index_map n with _ | emailId
    · rw [hdg] at hout
      injection hout with h1 _
      rw [← h1]
      exact hc
    · rw [hdg] at hout
      by_cases hne : emailId.isEmpty
      · simp only [hne, if_true] at hout
        injection hout with h1 _
        rw [← h1]
        exact hc
      · simp only [hne, Bool.false_eq_true, if_false] at hout
        rcases hbv : resolveReplyBody s n rb with _ | bv
        · rw [hbv] at hout
          injection hout with h1 _
          rw [← h1]
          exact hc
        · rw [hbv] at hout
          rcases hgm : svc.getMessage emailId with e | orig
          · rw [hgm] at hout
            injection hout with h1 _
            rw [← h1]
            exact hc
          · rw [hgm] at hout
            simp only at hout
            rcases bv with bn | body | _
            · injection hout with h1 _
              rw [← h1]
              exact hc
            · simp only at hout
              rcases hsm : svc.sendMessage (create_reply_message
                  (parse_email_address (headerGet orig.headers (("From").data) []))
                  (headerGet orig.headers (("Subject").data) []) body orig.threadId) with
                e | u
              · rw [hsm] at hout
                injection hout with h1 _
                rw [← h1]
                exact hc
              · rw [hsm] at hout
                injection hout with h1 _
                by_cases hln : s.last_number = some n
                · rw [if_pos hln] at h1
                  rw [← h1]
                  simp [coupled]
                · rw [if_neg hln] at h1
                  rw [← h1]
                  exact hc
            · injection hout with h1 _
              rw [← h1]
              exact hc

/-- Witness for C10 at concrete operations: a read that generates a draft
and a send that clears it both preserve the coupling. -/
theorem C10_pending_draft_coupling_witness :
    coupled (read_email svcHappy id llmOk sessionTwo 1 true (("normal").data)).1 ∧
    coupled (send_reply svcHappy
        { sessionTwo with last_draft := some (("D").data), last_number := some 1 }
        1 none).1 :=
  ⟨C10_pending_draft_coupling.2.2.2.1 svcHappy id llmOk sessionTwo 1 true
      (("normal").data) (by decide),
   C10_pending_draft_coupling.2.2.2.2.2 svcHappy
      { sessionTwo with last_draft := some (("D").data), last_number := some 1 }
      1 none (by decide)⟩

/-- A tool call that binds is dispatched without an uncaught exception. -/
theorem dispatchCall_ok_of_binds (env : AgentEnv) (mb : Session) (tc : ToolCall)
    (hb : dispatchBinds env tc = true) :
    ∃ mb' r, dispatchCall env mb tc = .ok (mb', r) := by
  rw [dispatchBinds] at hb
  rw [dispatchCall]
  by_cases hk : knownTool tc.name
  · simp only [hk, if_true] at hb ⊢
    rcases hra : resolvedArgs env tc with kvs | s | _
    · rw [hra] at hb
      simp only [hb, if_true]
      split_ifs <;> exact ⟨_, _, rfl⟩
    · rw [hra] at hb
      simp at hb
    · rw [hra] at hb
      simp at hb
  · simp only [hk, Bool.false_eq_true, if_false]
    exact ⟨_, _, rfl⟩

/-- When every listed call binds, the tool loop processes each call exactly
once, in order, appending one `tool`-role message per call and reporting no
fault. -/
theorem runCalls_ok (env : AgentEnv) (tcs : List ToolCall) :
    ∀ (mb : Session) (hist : List HMsg) (done : List ToolCall),
      (∀ tc ∈ tcs, dispatchBinds env tc = true) →
      ∃ (toolMsgs : List HMsg) (mb' : Session),
        runCalls env tcs mb hist done =
          { mailbox := mb', hist := hist ++ toolMsgs, processed := done ++ tcs,
            fault := none } ∧
        toolMsgs.length = tcs.length ∧ ∀ m ∈ toolMsgs, ∃ c, m = HMsg.tool c := by
  induction tcs with
  | nil =>
    intro mb hist done _
    exact ⟨[], mb, by simp [runCalls], rfl, by simp⟩
  | cons tc rest ih =>
    intro mb hist done h
    obtain ⟨mb1, r, hd⟩ := dispatchCall_ok_of_binds env mb tc (h tc (by simp))
    obtain ⟨toolMsgs, mb', hrun, hlen, htool⟩ :=
      ih mb1 (hist ++ [.tool (env.dumps r)]) (done ++ [tc])
        (fun tc' htc' => h tc' (by simp [htc']))
    refine ⟨.tool (env.dumps r) :: toolMsgs, mb', ?_, by simp [hlen], ?_⟩
    · rw [runCalls, hd]
      show runCalls env rest mb1 (hist ++ [HMsg.tool (env.dumps r)]) (done ++ [tc]) =
        { mailbox := mb', hist := hist ++ HMsg.tool (env.dumps r) :: toolMsgs,
          processed := done ++ tc :: rest, fault := none }
      rw [hrun]
      simp
    · intro m hm
      rcases List.mem_cons.mp hm with h1 | h2
      · exact ⟨_, h1⟩
      · exact htool m h2

/-- C8 (amended): with the Language-Model Capability's two successive answers
in hand, a turn whose first response carries no tool calls makes exactly one
invocation; a turn whose first response carries tool calls that all bind to
their wrappers' signatures executes each listed call exactly once in the
order received, appends one `tool` message per call, makes exactly one
follow-up invocation (2 in total) and returns the second response's text —
tool calls in the second response are never executed.  A listed call naming a
known tool whose (possibly degraded) arguments fail to bind raises
`TypeError` and aborts the turn (see the counterexample). -/
theorem C8_chat_one_round_amended (env : AgentEnv) (st : AgentSt) (u : PyStr)
    (r1 r2 : AMsg) (rest : List AMsg) (hresp : env.responses = r1 :: r2 :: rest) :
    (r1.tool_calls = [] →
      chat env st u =
        { st := { history := st.history ++ [.user u, .assistant r1.content],
                  mailbox := st.mailbox },
          output := .ok r1.content, llmCalls := 1, executed := [] }) ∧
    (r1.tool_calls ≠ [] →
      (∀ tc ∈ r1.tool_calls, dispatchBinds env tc = true) →
      (chat env st u).llmCalls = 2 ∧
      (chat env st u).executed = r1.tool_calls ∧
      (chat env st u).output = .ok r2.content ∧
      ∃ toolMsgs : List HMsg, toolMsgs.length = r1.tool_calls.length ∧
        (∀ m ∈ toolMsgs, ∃ c, m = HMsg.tool c) ∧
        (chat env st u).st.history =
          st.history ++ [.user u, .assistantCalls r1] ++ toolMsgs ++
            [.assistant r2.content]) := by
  constructor
  · intro hempty
    rw [chat, hresp]
    simp [hempty]
  · intro hne hbinds
    obtain ⟨toolMsgs, mb', hrun, hlen, htool⟩ :=
      runCalls_ok env r1.tool_calls st.mailbox
        ((st.history ++ [.user u]) ++ [.assistantCalls r1]) [] hbinds
    have hchat : chat env st u =
        { st := { history := (((st.history ++ [.user u]) ++ [.assistantCalls r1]) ++
                               toolMsgs) ++ [.assistant r2.content],
                  mailbox := mb' },
          output := .ok r2.content, llmCalls := 2, executed := r1.tool_calls } := by
      rw [chat, hresp]
      simp only [List.isEmpty_eq_true, hne, if_false]
      rw [hrun]
      simp [List.append_assoc]
    rw [hchat]
    refine ⟨rfl, by simp, rfl, toolMsgs, hlen, htool, by simp [List.append_assoc]⟩

/-- Witness for C8 at a concrete turn: one well-formed `list_emails` call is
executed, two model invocations are made, and the second response's text is
returned. -/
theorem C8_chat_one_round_amended_witness :
    (chat envListTool agentSt0 (("hi").data)).llmCalls = 2 ∧
    (chat envListTool agentSt0 (("hi").data)).executed =
      [{ name := ("list_emails").data, args := .obj [] }] ∧
    (chat envListTool agentSt0 (("hi").data)).output = .ok (("done").data) := by
  obtain ⟨h1, h2, h3, _⟩ :=
    (C8_chat_one_round_amended envListTool agentSt0 (("hi").data)
        (amsgCall (("list_emails").data) (.obj [])) (amsgText (("done").data)) [] rfl).2
      (by decide) (by decide)
  exact ⟨h1, h2, h3⟩

/-- C8 counterexample: the first response carries a `read_email` tool call
with an empty argument mapping; the dispatch raises `TypeError` (the required
`email_number` is missing), so the call is never executed, no follow-up model
call happens (1 invocation, not 2), and the turn aborts instead of
returning text. -/
theorem C8_chat_one_round_cex :
    envReadNoArgs.responses.head? = some (amsgCall (("read_email").data) (.obj [])) ∧
    (chat envReadNoArgs agentSt0 (("hi").data)).llmCalls = 1 ∧
    (chat envReadNoArgs agentSt0 (("hi").data)).executed = [] ∧
    (chat envReadNoArgs agentSt0 (("hi").data)).output =
      .error (("TypeError: arguments do not match the signature of read_email").data) := by
  exact ⟨by decide, by decide, by decide, by rfl⟩

/-- C9 (amended): a tool call naming an unknown tool is answered inline with
the `Unknown function: <name>` error payload and touches nothing; a string
argument payload that fails to parse as JSON degrades to the empty argument
set; and a turn completes and returns text provided every listed call either
names an unknown tool or binds to its wrapper's signature — but a known tool
whose degraded arguments fail to bind raises `TypeError` and aborts the turn
(see the counterexample). -/
theorem C9_dispatch_resilience_amended :
    (∀ (env : AgentEnv) (mb : Session) (name : PyStr) (args : FArgs),
        knownTool name = false →
        dispatchCall env mb { name := name, args := args } =
          .ok (mb, .errorDict ((("Unknown function: ").data) ++ name))) ∧
    (∀ (env : AgentEnv) (mb : Session) (name s : PyStr),
        env.jsonLoads s = .error () →
        dispatchCall env mb { name := name, args := .text s } =
          dispatchCall env mb { name := name, args := .obj [] }) ∧
    (∀ (env : AgentEnv) (st : AgentSt) (u : PyStr) (r1 r2 : AMsg) (rest : List AMsg),
        env.responses = r1 :: r2 :: rest →
        (∀ tc ∈ r1.tool_calls, dispatchBinds env tc = true) →
        ∃ t, (chat env st u).output = .ok t) := by
  refine ⟨?_, ?_, ?_⟩
  · intro env mb name args h
    rw [dispatchCall]
    simp [h]
  · intro env mb name s h
    rw [dispatchCall, dispatchCall]
    simp [resolvedArgs, h]
  · intro env st u r1 r2 rest hresp hbinds
    by_cases hempty : r1.tool_calls = []
    · refine ⟨r1.content, ?_⟩
      rw [chat, hresp]
      simp [hempty]
    · obtain ⟨toolMsgs, mb', hrun, _, _⟩ :=
        runCalls_ok env r1.tool_calls st.mailbox
          ((st.history ++ [.user u]) ++ [.assistantCalls r1]) [] hbinds
      refine ⟨r2.content, ?_⟩
      rw [chat, hresp]
      simp only [List.isEmpty_eq_true, hempty, if_false]
      rw [hrun]

/-- Witness for C9 at concrete inputs: an unknown tool name resolves to the
inline error payload without aborting, and an unparsable string payload is
dispatched like the empty mapping. -/
theorem C9_dispatch_resilience_amended_witness :
    dispatchCall envListTool Session.init
        { name := ("frobnicate").data, args := .obj [] } =
      .ok (Session.init, .errorDict (("Unknown function: ").data ++ ("frobnicate").data)) ∧
    dispatchCall envListTool Session.init
        { name := ("frobnicate").data, args := .text (("oops").data) } =
      dispatchCall envListTool Session.init
        { name := ("frobnicate").data, args := .obj [] } :=
  ⟨C9_dispatch_resilience_amended.1 envListTool Session.init (("frobnicate").data)
      (.obj []) (by decide),
   C9_dispatch_resilience_amended.2.1 envListTool Session.init (("frobnicate").data)
      (("oops").data) (by rfl)⟩

/-- C9 counterexample: a `read_email` tool call whose string arguments fail
to parse degrades to the empty argument set, which does not bind to the
wrapper's required `email_number` — the turn aborts with an uncaught
`TypeError` instead of completing and returning text. -/
theorem C9_dispatch_resilience_cex :
    envReadBadJson.jsonLoads (("not json").data) = .error () ∧
    (chat envReadBadJson agentSt0 (("hi").data)).output =
      .error (("TypeError: arguments do not match the signature of read_email").data) := by
  exact ⟨by rfl, by rfl⟩

end Autoresponder
